import Mathlib

/-!
Verification of the sharevia-snapshot-service reconciliation engine.

The development shallowly embeds the Python sources:
  * `brightdata_client.py` — `check_download_for_errors`,
    `extract_linkedin_content`, `extract_x_content`;
  * `snapshot_service.py` — `process_result`,
    `process_snapshot_for_bookmark`, `poll_snapshots_once`;
  * `app.py` — the bounded worker loop in `main`.

JSON values (and Python `None`) are modelled by the inductive `Json`;
Python dictionaries are association lists in insertion order; run-time
exceptions (`TypeError`, `KeyError`, `IndexError`, `UnboundLocalError`)
are modelled by `Except PyErr`.  HTTP calls are abstracted as function
parameters: the download call yields an `Option HttpResponse`
(`none` models a `requests` exception, so `download_snapshot_results`
returning `None`), and the store update is a parameter returning the
updated record or `none`.
-/

/-- JSON values; `Json.null` also models Python `None` (a JSON `null`
read by `response.json()` becomes Python `None`). Numbers are modelled
as integers, which suffices for every claim considered here. Objects
keep their key/value pairs in insertion order, as Python dicts do. -/
inductive Json where
  | null : Json
  | bool : Bool → Json
  | num : Int → Json
  | str : String → Json
  | arr : List Json → Json
  | obj : List (String × Json) → Json

/-- Python run-time exceptions relevant to the embedded code. -/
inductive PyErr where
  | typeError : PyErr
  | keyError : PyErr
  | indexError : PyErr
  | unboundLocalError : PyErr
deriving DecidableEq

/-- First binding of a key in a dict, `d[k]` / `d.get(k)` lookup core. -/
def lookupKey : List (String × Json) → String → Option Json
  | [], _ => none
  | (k', v) :: rest, k => if k' == k then some v else lookupKey rest k

/-- Python `d.get(k)`: the stored value, or `None` when the key is absent. -/
def pyGet (kvs : List (String × Json)) (k : String) : Json :=
  (lookupKey kvs k).getD Json.null

/-- Python `d.get(k, default)`. -/
def pyGetD (kvs : List (String × Json)) (k : String) (d : Json) : Json :=
  (lookupKey kvs k).getD d

/-- Python truthiness of a value: `None`/`False`/`0`/`""`/`[]`/`{}` are
falsy, everything else is truthy. -/
def truthy : Json → Bool
  | Json.null => false
  | Json.bool b => b
  | Json.num n => n != 0
  | Json.str s => !s.data.isEmpty
  | Json.arr xs => !xs.isEmpty
  | Json.obj kvs => !kvs.isEmpty

/-- Python `a or b`: `a` when truthy, else `b`. -/
def pyOr (a b : Json) : Json := if truthy a then a else b

/-- Python `len(v)`: defined on strings, lists and dicts, `TypeError`
otherwise (in particular on booleans and numbers). -/
def pyLen : Json → Except PyErr Nat
  | Json.str s => Except.ok s.data.length
  | Json.arr xs => Except.ok xs.length
  | Json.obj kvs => Except.ok kvs.length
  | _ => Except.error PyErr.typeError

/-- Python `v[0]`: first element of a list, first character of a string
(as a one-character string), `KeyError` on a dict (JSON object keys are
strings, never the integer `0`), `TypeError` otherwise. -/
def pyIndex0 : Json → Except PyErr Json
  | Json.arr (x :: _) => Except.ok x
  | Json.arr [] => Except.error PyErr.indexError
  | Json.str s =>
    match s.data with
    | c :: _ => Except.ok (Json.str (String.mk [c]))
    | [] => Except.error PyErr.indexError
  | Json.obj _ => Except.error PyErr.keyError
  | _ => Except.error PyErr.typeError

/-- Whether the first character list is an initial segment of the
second. -/
def startsWithChars : List Char → List Char → Bool
  | [], _ => true
  | _ :: _, [] => false
  | c :: cs, d :: ds => c == d && startsWithChars cs ds

/-- Whether `sub` occurs as a contiguous segment of `s`. -/
def containsChars (sub : List Char) : List Char → Bool
  | [] => sub.isEmpty
  | c :: rest => startsWithChars sub (c :: rest) || containsChars sub rest

/-- `True` exactly when `sub` occurs as a substring of `s`; mirrors
Python `sub in s` for strings. -/
def strContainsSub (s sub : String) : Bool :=
  containsChars sub.data s.data

/-- Whether a JSON value is exactly the given string; Python `==`
between a string and an arbitrary value. -/
def isStrEq (j : Json) (k : String) : Bool :=
  match j with
  | Json.str s => s == k
  | _ => false

/-- Python `k in container` for a string `k`: key membership for dicts,
substring test for strings, element equality for lists, `TypeError` for
`None`, booleans and numbers. -/
def pyContains (container : Json) (k : String) : Except PyErr Bool :=
  match container with
  | Json.obj kvs => Except.ok (kvs.any (fun kv => kv.1 == k))
  | Json.str s => Except.ok (strContainsSub s k)
  | Json.arr xs => Except.ok (xs.any (fun e => isStrEq e k))
  | _ => Except.error PyErr.typeError

/-- Python `container[k]` for a string key `k`: dict lookup
(`KeyError` when absent), `TypeError` on every other shape (string and
list subscripts must be integers). -/
def pyGetItem (container : Json) (k : String) : Except PyErr Json :=
  match container with
  | Json.obj kvs =>
    match lookupKey kvs k with
    | some v => Except.ok v
    | none => Except.error PyErr.keyError
  | _ => Except.error PyErr.typeError

mutual
/-- Python `repr` of a JSON value (`None`, `True`, quoted strings,
`[...]` lists, `{...}` dicts). The exact rendering is irrelevant to the
claims; only that it is a total function into strings matters. -/
def pyRepr : Json → String
  | Json.null => "None"
  | Json.bool true => "True"
  | Json.bool false => "False"
  | Json.num n => toString n
  | Json.str s => "'" ++ s ++ "'"
  | Json.arr xs => "[" ++ pyReprList xs ++ "]"
  | Json.obj kvs => "\x7b" ++ pyReprObj kvs ++ "\x7d"

/-- Comma-separated reprs of the elements of a list. -/
def pyReprList : List Json → String
  | [] => ""
  | [x] => pyRepr x
  | x :: xs => pyRepr x ++ ", " ++ pyReprList xs

/-- Comma-separated `'key': value` reprs of the entries of a dict. -/
def pyReprObj : List (String × Json) → String
  | [] => ""
  | [(k, v)] => "'" ++ k ++ "': " ++ pyRepr v
  | (k, v) :: kvs => "'" ++ k ++ "': " ++ pyRepr v ++ ", " ++ pyReprObj kvs
end

/-- Python `str(v)`: a string prints as itself, everything else as its
repr. -/
def pyStr (j : Json) : String :=
  match j with
  | Json.str s => s
  | _ => pyRepr j

/-- Python conditional `v and len(v) > 0` coerced to a boolean, exactly
the guard the extractors use on `photos` / `videos` / `images`; raises
whatever `len` raises when `v` is truthy but unsized. -/
def condTruthyLen (v : Json) : Except PyErr Bool :=
  if truthy v then
    match pyLen v with
    | Except.ok n => Except.ok (decide (0 < n))
    | Except.error e => Except.error e
  else Except.ok false

/-- Python `v[0] if v and len(v) > 0 else None`. -/
def pyFirstOrNone (v : Json) : Except PyErr Json :=
  match condTruthyLen v with
  | Except.error e => Except.error e
  | Except.ok true => pyIndex0 v
  | Except.ok false => Except.ok Json.null

/-- The four-field record built by the extractors
(`brightdata_client.extract_x_content` / `extract_linkedin_content`).
`Json.null` models Python `None`; the LinkedIn extractor omits the
`preview_video_url` key from its dict, which downstream `.get` reads as
`None`, so it is modelled as `Json.null` here. -/
structure ExtractedContent where
  content : Json
  preview_image_url : Json
  preview_video_url : Json
  social_profile_name : Json

/-- `brightdata_client.extract_x_content`: content is the first truthy
of `description`/`text`/`content` else `str(data)`; preview image is
`photos[0] if photos and len(photos) > 0 else None`; only when that
image is falsy are `videos` consulted (`videos[0]`, unwrapping a
`video_url` field when the element is a dict); author is `user_posted`.
Non-dict input falls back to `str(data)` with all other fields `None`. -/
def extract_x_content (content_data : Json) : Except PyErr ExtractedContent :=
  match content_data with
  | Json.obj kvs =>
    let content :=
      pyOr (pyOr (pyOr (pyGet kvs "description") (pyGet kvs "text"))
        (pyGet kvs "content")) (Json.str (pyStr content_data))
    let photos := pyGetD kvs "photos" (Json.arr [])
    match pyFirstOrNone photos with
    | Except.error e => Except.error e
    | Except.ok preview_image_url =>
      let videoRes : Except PyErr Json :=
        if truthy preview_image_url then Except.ok Json.null
        else
          let videos := pyGetD kvs "videos" (Json.arr [])
          match condTruthyLen videos with
          | Except.error e => Except.error e
          | Except.ok false => Except.ok Json.null
          | Except.ok true =>
            match pyIndex0 videos with
            | Except.error e => Except.error e
            | Except.ok video_obj =>
              match video_obj with
              | Json.obj vkvs => Except.ok (pyGet vkvs "video_url")
              | _ => Except.ok video_obj
      match videoRes with
      | Except.error e => Except.error e
      | Except.ok preview_video_url =>
        Except.ok
          { content := content
            preview_image_url := preview_image_url
            preview_video_url := preview_video_url
            social_profile_name := pyGet kvs "user_posted" }
  | _ =>
    Except.ok
      { content := Json.str (pyStr content_data)
        preview_image_url := Json.null
        preview_video_url := Json.null
        social_profile_name := Json.null }

/-- `brightdata_client.extract_linkedin_content`: content is the first
truthy of `post_text`/`text`/`title`/`headline` else `str(data)`;
preview image is `images[0] if images and len(images) > 0 else None`;
author is `user_id`. The Python dict carries no `preview_video_url`
key, read downstream as `None` (`Json.null`). -/
def extract_linkedin_content (content_data : Json) : Except PyErr ExtractedContent :=
  match content_data with
  | Json.obj kvs =>
    let content :=
      pyOr (pyOr (pyOr (pyOr (pyGet kvs "post_text") (pyGet kvs "text"))
        (pyGet kvs "title")) (pyGet kvs "headline"))
        (Json.str (pyStr content_data))
    let images := pyGetD kvs "images" (Json.arr [])
    match pyFirstOrNone images with
    | Except.error e => Except.error e
    | Except.ok preview_image_url =>
      Except.ok
        { content := content
          preview_image_url := preview_image_url
          preview_video_url := Json.null
          social_profile_name := pyGet kvs "user_id" }
  | _ =>
    Except.ok
      { content := Json.str (pyStr content_data)
        preview_image_url := Json.null
        preview_video_url := Json.null
        social_profile_name := Json.null }

/-- Loop body of `brightdata_client.check_download_for_errors`:
first item containing `"error"` makes the scan return `True`. -/
def checkItemsForError : List Json → Except PyErr Bool
  | [] => Except.ok false
  | item :: rest =>
    match pyContains item "error" with
    | Except.error e => Except.error e
    | Except.ok true => Except.ok true
    | Except.ok false => checkItemsForError rest

/-- `brightdata_client.check_download_for_errors`: scans a non-empty
list for an item containing `"error"`; any other shape yields `False`. -/
def check_download_for_errors (response_data : Json) : Except PyErr Bool :=
  match response_data with
  | Json.arr items =>
    if 0 < items.length then checkItemsForError items else Except.ok false
  | _ => Except.ok false

/-- `snapshot_service.process_result`: dispatches on the service name,
with an all-empty record for unknown services. -/
def process_result (result_data : Json) (service_name : String) :
    Except PyErr ExtractedContent :=
  if service_name == "x" then extract_x_content result_data
  else if service_name == "linkedin" then extract_linkedin_content result_data
  else
    Except.ok
      { content := Json.str ""
        preview_image_url := Json.null
        preview_video_url := Json.null
        social_profile_name := Json.null }

/-- Python dict assignment `d[k] = v`: replaces the value in place when
the key exists, appends at the end otherwise. -/
def setKey : List (String × Json) → String → Json → List (String × Json)
  | [], k, v => [(k, v)]
  | (k', v') :: rest, k, v =>
    if k' == k then (k', v) :: rest else (k', v') :: setKey rest k v

/-- The four guarded insertions at the end of the `Ready` branch of
`snapshot_service.process_snapshot_for_bookmark`: each extracted field
is written into `updates` only when truthy (`if processed.get(...)`). -/
def appendContentFields (updates : List (String × Json))
    (processed : ExtractedContent) : List (String × Json) :=
  let u := updates
  let u := if truthy processed.content then setKey u "description" processed.content else u
  let u := if truthy processed.preview_image_url then
    setKey u "preview_image_url" processed.preview_image_url else u
  let u := if truthy processed.preview_video_url then
    setKey u "preview_video_url" processed.preview_video_url else u
  let u := if truthy processed.social_profile_name then
    setKey u "social_profile_name" processed.social_profile_name else u
  u

/-- The error loop of `process_snapshot_for_bookmark`: for every result
item containing `"error"`, write `updates["scrape_error"] = item["error"]`
(later items overwrite earlier ones). -/
def scrape_error_updates : List Json → List (String × Json) →
    Except PyErr (List (String × Json))
  | [], updates => Except.ok updates
  | item :: rest, updates =>
    match pyContains item "error" with
    | Except.error e => Except.error e
    | Except.ok true =>
      match pyGetItem item "error" with
      | Except.error e => Except.error e
      | Except.ok v => scrape_error_updates rest (setKey updates "scrape_error" v)
    | Except.ok false => scrape_error_updates rest updates

/-- The body of the HTTP-200 branch of `process_snapshot_for_bookmark`:
start from `updates = {"snapshot_id": None}`; if
`check_download_for_errors` finds provider errors run the error loop,
otherwise take the first result element, classify the platform from the
URL (`"linkedin.com" in url`), extract, and append the truthy content
fields. -/
def compute_updates_for_200 (url : Json) (results : Json) :
    Except PyErr (List (String × Json)) :=
  let updates : List (String × Json) := setKey [] "snapshot_id" Json.null
  match check_download_for_errors results with
  | Except.error e => Except.error e
  | Except.ok true =>
    match results with
    | Json.arr items => scrape_error_updates items updates
    | _ => Except.ok updates
  | Except.ok false =>
    let firstResult : Except PyErr Json :=
      match results with
      | Json.arr (x :: _) => Except.ok x
      | Json.arr [] => Except.error PyErr.indexError
      | _ => Except.ok results
    match firstResult with
    | Except.error e => Except.error e
    | Except.ok result_data =>
      match pyContains url "linkedin.com" with
      | Except.error e => Except.error e
      | Except.ok isLinkedin =>
        let service_name := if isLinkedin then "linkedin" else "x"
        match process_result result_data service_name with
        | Except.error e => Except.error e
        | Except.ok processed => Except.ok (appendContentFields updates processed)

/-- The provider response to `download_snapshot_results`: HTTP status
plus the parsed JSON body. `requests.Response` is truthy exactly when
its status code is below 400. -/
structure HttpResponse where
  status_code : Nat
  body : Json

/-- Python truthiness of `update_bookmark`'s return value (updated
record or `None`). -/
def storeResultTruthy : Option Json → Bool
  | none => false
  | some j => truthy j

/-- Observable outcome of one `process_snapshot_for_bookmark` call: the
Python return value (or the exception escaping the call) together with
the list of `update_bookmark` invocations it performed, each recorded
as (bookmark id, update payload). -/
structure ProcOutcome where
  result : Except PyErr (Option Bool)
  updateCalls : List (Json × List (String × Json))

/-- `snapshot_service.process_snapshot_for_bookmark`.  `download` is
the outcome of `brightdata_client.download_snapshot_results`
(`none` when that call swallowed a transport exception and returned
`None`); `store` is `supabase_client.update_bookmark`, which catches
its own exceptions and returns the updated record or `None`.
Control flow mirrors the source: a falsy response (`None`, or status
≥ 400) skips the whole `if response:` block; status 202 returns `None`
early; status 200 computes `updates`, performs the single
`update_bookmark` call and returns `True`/`False` by the truthiness of
its result; every remaining path reaches `if result:` with the local
variable `result` unassigned and raises `UnboundLocalError`. -/
def process_snapshot_for_bookmark (bookmark_id snapshot_id url : Json)
    (download : Option HttpResponse)
    (store : Json → List (String × Json) → Option Json) : ProcOutcome :=
  match download with
  | some response =>
    if response.status_code < 400 then
      if response.status_code == 202 then
        { result := Except.ok none, updateCalls := [] }
      else if response.status_code == 200 then
        match compute_updates_for_200 url response.body with
        | Except.error e => { result := Except.error e, updateCalls := [] }
        | Except.ok updates =>
          let result := store bookmark_id updates
          if storeResultTruthy result then
            { result := Except.ok (some true), updateCalls := [(bookmark_id, updates)] }
          else
            { result := Except.ok (some false), updateCalls := [(bookmark_id, updates)] }
      else
        { result := Except.error PyErr.unboundLocalError, updateCalls := [] }
    else
      { result := Except.error PyErr.unboundLocalError, updateCalls := [] }
  | none => { result := Except.error PyErr.unboundLocalError, updateCalls := [] }

/-- `snapshot_service.poll_snapshots_once`, its per-bookmark loop: each
bookmark record is read with `.get`; a falsy `snapshot_id` is skipped;
otherwise `process_snapshot_for_bookmark` runs inside
`try ... except Exception: continue`, so its exceptions are absorbed
and the loop proceeds with the remaining bookmarks either way.  The
returned trace is the concatenation of all `update_bookmark` calls the
cycle performed. -/
def poll_snapshots_once (bookmarks : List (List (String × Json)))
    (download : Json → Option HttpResponse)
    (store : Json → List (String × Json) → Option Json) :
    List (Json × List (String × Json)) :=
  match bookmarks with
  | [] => []
  | bookmark :: rest =>
    let bookmark_id := pyGet bookmark "id"
    let snapshot_id := pyGet bookmark "snapshot_id"
    let url := pyGet bookmark "url"
    if truthy snapshot_id then
      let out := process_snapshot_for_bookmark bookmark_id snapshot_id url
        (download snapshot_id) store
      out.updateCalls ++ poll_snapshots_once rest download store
    else
      poll_snapshots_once rest download store

/-- Exit state of the bounded worker loop in `app.main`:
`runtime` is `proc_runtime_in_secs` when the `while` guard finally
fails, `sleptLast` records whether the last accumulation before exiting
was a (truncated) sleep, and `cycleStarts` lists the accumulated
runtimes at which each polling cycle was started. -/
structure LoopExit where
  runtime : Nat
  sleptLast : Bool
  cycleStarts : List Nat

/-- The `while proc_runtime_in_secs < MAX_PROC_RUNTIME_IN_SECONDS` loop
of `app.main`, with time in whole seconds (`Nat`): iteration `i` runs a
cycle taking `els i` seconds, adds it to the accumulated runtime, and —
only if the ceiling has not yet been reached — sleeps
`min poll_interval (maxRt - runtime)` seconds and adds that too.
The loop is embedded with explicit fuel; `none` means the fuel was
exhausted before the guard failed. -/
def workerLoop (maxRt interval : Nat) (els : Nat → Nat) :
    Nat → Nat → Nat → Bool → List Nat → Option LoopExit
  | 0, _, _, _, _ => none
  | fuel + 1, i, rt, sleptLast, starts =>
    if rt < maxRt then
      let rt1 := rt + els i
      if rt1 < maxRt then
        let s := min interval (maxRt - rt1)
        workerLoop maxRt interval els fuel (i + 1) (rt1 + s) true (starts ++ [rt])
      else some { runtime := rt1, sleptLast := false, cycleStarts := starts ++ [rt] }
    else some { runtime := rt, sleptLast := sleptLast, cycleStarts := starts }

/-- Entry into the bounded worker loop: `proc_runtime_in_secs = 0`,
nothing accumulated yet. -/
def main_bounded (maxRt interval : Nat) (els : Nat → Nat) (fuel : Nat) :
    Option LoopExit :=
  workerLoop maxRt interval els fuel 0 0 false []

/-- The `"error"` value of the LAST result element that carries an
`"error"` key (later loop iterations overwrite `updates["scrape_error"]`);
`none` when no element carries one. -/
def lastErrorValue : List Json → Option Json
  | [] => none
  | item :: rest =>
    match lastErrorValue rest with
    | some v => some v
    | none =>
      match item with
      | Json.obj kvs => lookupKey kvs "error"
      | _ => none

/-- Whether a key occurs in an update payload (association list). -/
def hasKey : List (String × Json) → String → Bool
  | [], _ => false
  | (k', _) :: rest, k => k' == k || hasKey rest k

/-- A value is either falsy or a string; the shape condition under
which a Python `a or b or ...` chain yields a string. -/
def strOrFalsy (v : Json) : Prop :=
  truthy v = false ∨ ∃ s, v = Json.str s

/-- A value is either falsy, a list, or a string: the shapes on which
`v and len(v) > 0` and the subsequent `v[0]` cannot raise. -/
def sizedOrFalsy (v : Json) : Prop :=
  truthy v = false ∨ (∃ xs, v = Json.arr xs) ∨ (∃ s, v = Json.str s)

/-- Restriction of X payload dicts under which `extract_x_content` is
total: the three content candidates are strings or falsy and the two
media lists are falsy, lists or strings.  Non-dict payloads need no
restriction. -/
def xSafeInput : Json → Prop
  | Json.obj kvs =>
    strOrFalsy (pyGet kvs "description") ∧ strOrFalsy (pyGet kvs "text") ∧
    strOrFalsy (pyGet kvs "content") ∧
    sizedOrFalsy (pyGetD kvs "photos" (Json.arr [])) ∧
    sizedOrFalsy (pyGetD kvs "videos" (Json.arr []))
  | _ => True

/-- Restriction of LinkedIn payload dicts under which
`extract_linkedin_content` is total. -/
def linkedinSafeInput : Json → Prop
  | Json.obj kvs =>
    strOrFalsy (pyGet kvs "post_text") ∧ strOrFalsy (pyGet kvs "text") ∧
    strOrFalsy (pyGet kvs "title") ∧ strOrFalsy (pyGet kvs "headline") ∧
    sizedOrFalsy (pyGetD kvs "images" (Json.arr []))
  | _ => True

/-- Helper: every run of `process_snapshot_for_bookmark` either made no
`update_bookmark` call or returned normally; hence an errored run made
no call (every raising path precedes the store call). -/
theorem proc_calls_or_ok (bookmark_id snapshot_id url : Json)
    (download : Option HttpResponse)
    (store : Json → List (String × Json) → Option Json) :
    (process_snapshot_for_bookmark bookmark_id snapshot_id url download store).updateCalls
      = [] ∨
    ∃ b, (process_snapshot_for_bookmark bookmark_id snapshot_id url download store).result
      = Except.ok b := by
  cases download with
  | none => exact Or.inl rfl
  | some r =>
    simp only [process_snapshot_for_bookmark]
    by_cases h4 : r.status_code < 400
    · rw [if_pos h4]
      by_cases h202 : (r.status_code == 202) = true
      · rw [if_pos h202]
        exact Or.inr ⟨none, rfl⟩
      · rw [if_neg h202]
        by_cases h200 : (r.status_code == 200) = true
        · rw [if_pos h200]
          cases hc : compute_updates_for_200 url r.body with
          | error e2 => exact Or.inl rfl
          | ok updates =>
            by_cases hs : storeResultTruthy (store bookmark_id updates) = true
            · exact Or.inr ⟨some true, by simp [hs]⟩
            · exact Or.inr ⟨some false, by simp [hs]⟩
        · rw [if_neg h200]
          exact Or.inl rfl
    · rw [if_neg h4]
      exact Or.inl rfl

/-- Helper: an errored `process_snapshot_for_bookmark` performed no
`update_bookmark` call. -/
theorem proc_error_no_calls (bookmark_id snapshot_id url : Json)
    (download : Option HttpResponse)
    (store : Json → List (String × Json) → Option Json) (e : PyErr)
    (h : (process_snapshot_for_bookmark bookmark_id snapshot_id url download store).result
      = Except.error e) :
    (process_snapshot_for_bookmark bookmark_id snapshot_id url download store).updateCalls
      = [] := by
  rcases proc_calls_or_ok bookmark_id snapshot_id url download store with hc | ⟨b, hb⟩
  · exact hc
  · exact absurd (h.symm.trans hb) (by simp)

/-- C5: when the provider responds 202 for a bookmark's handle,
`process_snapshot_for_bookmark` returns `None` early, issues no
`update_bookmark` call, so the snapshot handle and every other bookmark
field are left unchanged and the item is seen again next cycle. -/
theorem pending_202_no_update (bookmark_id snapshot_id url : Json)
    (body : Json) (store : Json → List (String × Json) → Option Json) :
    process_snapshot_for_bookmark bookmark_id snapshot_id url
      (some { status_code := 202, body := body }) store
      = { result := Except.ok none, updateCalls := [] } := by
  rfl

/-- C4: when the download call fails entirely (`None`) or returns a
status that is neither 200 nor 202, no `update_bookmark` call is
issued, so the snapshot handle is not cleared, the bookmark record is
untouched, and the item is still pending for the next polling cycle. -/
theorem transport_error_no_update (bookmark_id snapshot_id url : Json)
    (download : Option HttpResponse)
    (store : Json → List (String × Json) → Option Json)
    (h : download = none ∨ ∃ r, download = some r ∧
      r.status_code ≠ 200 ∧ r.status_code ≠ 202) :
    (process_snapshot_for_bookmark bookmark_id snapshot_id url download store).updateCalls
      = [] := by
  rcases h with h | ⟨r, rfl, h200, h202⟩
  · subst h; rfl
  · have e202 : (r.status_code == 202) = false := by simp [h202]
    have e200 : (r.status_code == 200) = false := by simp [h200]
    unfold process_snapshot_for_bookmark
    by_cases h4 : r.status_code < 400 <;> simp [h4, e202, e200]

/-- C4 witness: a 500 response yields no update call. -/
theorem transport_error_no_update_witness :
    (process_snapshot_for_bookmark (Json.str "b1") (Json.str "h1")
      (Json.str "https://x.com/a") (some { status_code := 500, body := Json.null })
      (fun _ _ => none)).updateCalls = [] :=
  transport_error_no_update (Json.str "b1") (Json.str "h1")
    (Json.str "https://x.com/a") (some { status_code := 500, body := Json.null })
    (fun _ _ => none)
    (Or.inr ⟨{ status_code := 500, body := Json.null }, rfl, by decide, by decide⟩)

/-- C10: on a failed download or a status that is neither 200 nor 202,
`process_snapshot_for_bookmark` does not return `False` as its
docstring says: control reaches `if result:` with the local variable
`result` never assigned, raising `UnboundLocalError`, which the per-item
handler in `poll_snapshots_once` then absorbs. -/
theorem unbound_result_on_failure (bookmark_id snapshot_id url : Json)
    (download : Option HttpResponse)
    (store : Json → List (String × Json) → Option Json)
    (h : download = none ∨ ∃ r, download = some r ∧
      r.status_code ≠ 200 ∧ r.status_code ≠ 202) :
    (process_snapshot_for_bookmark bookmark_id snapshot_id url download store).result
      = Except.error PyErr.unboundLocalError := by
  rcases h with h | ⟨r, rfl, h200, h202⟩
  · subst h; rfl
  · have e202 : (r.status_code == 202) = false := by simp [h202]
    have e200 : (r.status_code == 200) = false := by simp [h200]
    unfold process_snapshot_for_bookmark
    by_cases h4 : r.status_code < 400 <;> simp [h4, e202, e200]

/-- C10 witness: a download that returned `None` ends in
`UnboundLocalError`. -/
theorem unbound_result_on_failure_witness :
    (process_snapshot_for_bookmark (Json.str "b2") (Json.str "h2")
      (Json.str "https://x.com/b") none (fun _ _ => none)).result
      = Except.error PyErr.unboundLocalError :=
  unbound_result_on_failure (Json.str "b2") (Json.str "h2")
    (Json.str "https://x.com/b") none (fun _ _ => none) (Or.inl rfl)

/-- C7: an exception escaping `process_snapshot_for_bookmark` for one
bookmark is absorbed by the per-item `try/except` in
`poll_snapshots_once`: the cycle over the remaining bookmarks proceeds
exactly as if the failing item were not there. -/
theorem per_item_failure_isolated (bookmark : List (String × Json))
    (rest : List (List (String × Json)))
    (download : Json → Option HttpResponse)
    (store : Json → List (String × Json) → Option Json) (e : PyErr)
    (h : (process_snapshot_for_bookmark (pyGet bookmark "id")
      (pyGet bookmark "snapshot_id") (pyGet bookmark "url")
      (download (pyGet bookmark "snapshot_id")) store).result = Except.error e) :
    poll_snapshots_once (bookmark :: rest) download store
      = poll_snapshots_once rest download store := by
  have hcons : poll_snapshots_once (bookmark :: rest) download store
      = if truthy (pyGet bookmark "snapshot_id") then
          (process_snapshot_for_bookmark (pyGet bookmark "id")
            (pyGet bookmark "snapshot_id") (pyGet bookmark "url")
            (download (pyGet bookmark "snapshot_id")) store).updateCalls ++
            poll_snapshots_once rest download store
        else poll_snapshots_once rest download store := rfl
  rw [hcons]
  by_cases ht : truthy (pyGet bookmark "snapshot_id") = true
  · rw [if_pos ht, proc_error_no_calls _ _ _ _ _ e h, List.nil_append]
  · rw [if_neg ht]

/-- C7 witness: a bookmark whose download fails (raising
`UnboundLocalError` inside processing) does not stop the remaining
bookmark from being processed. -/
theorem per_item_failure_isolated_witness :
    poll_snapshots_once
      [[("id", Json.str "b1"), ("snapshot_id", Json.str "h1"),
        ("url", Json.str "https://x.com/a")],
       [("id", Json.str "b2"), ("snapshot_id", Json.str "h2"),
        ("url", Json.str "https://x.com/b")]]
      (fun _ => none) (fun _ _ => none)
      = poll_snapshots_once
        [[("id", Json.str "b2"), ("snapshot_id", Json.str "h2"),
          ("url", Json.str "https://x.com/b")]]
        (fun _ => none) (fun _ _ => none) :=
  per_item_failure_isolated
    [("id", Json.str "b1"), ("snapshot_id", Json.str "h1"),
     ("url", Json.str "https://x.com/a")]
    [[("id", Json.str "b2"), ("snapshot_id", Json.str "h2"),
      ("url", Json.str "https://x.com/b")]]
    (fun _ => none) (fun _ _ => none) PyErr.unboundLocalError rfl

/-- C2: a 200 response with body
`[{"description":"hi","photos":["img.png"],"user_posted":"alice"}]` for
a URL that classifies as platform X (no `"linkedin.com"` substring)
makes
`process_snapshot_for_bookmark` perform exactly one `update_bookmark`
call, whose payload is exactly
`{snapshot_id: None, description: "hi", preview_image_url: "img.png",
social_profile_name: "alice"}`. -/
theorem ready_x_exact_update (bookmark_id snapshot_id : Json) (url_s : String)
    (store : Json → List (String × Json) → Option Json)
    (h : strContainsSub url_s "linkedin.com" = false) :
    (process_snapshot_for_bookmark bookmark_id snapshot_id (Json.str url_s)
      (some { status_code := 200,
              body := Json.arr [Json.obj [("description", Json.str "hi"),
                ("photos", Json.arr [Json.str "img.png"]),
                ("user_posted", Json.str "alice")]] }) store).updateCalls
      = [(bookmark_id,
          [("snapshot_id", Json.null), ("description", Json.str "hi"),
           ("preview_image_url", Json.str "img.png"),
           ("social_profile_name", Json.str "alice")])] := by
  have hcu : compute_updates_for_200 (Json.str url_s)
      (Json.arr [Json.obj [("description", Json.str "hi"),
        ("photos", Json.arr [Json.str "img.png"]),
        ("user_posted", Json.str "alice")]])
      = Except.ok [("snapshot_id", Json.null), ("description", Json.str "hi"),
          ("preview_image_url", Json.str "img.png"),
          ("social_profile_name", Json.str "alice")] := by
    simp only [compute_updates_for_200, pyContains, h]
    rfl
  simp only [process_snapshot_for_bookmark, hcu]
  by_cases hs : storeResultTruthy (store bookmark_id
      [("snapshot_id", Json.null), ("description", Json.str "hi"),
       ("preview_image_url", Json.str "img.png"),
       ("social_profile_name", Json.str "alice")]) = true <;>
    simp [hs]

/-- C2 witness: the scenario at the concrete URL
`https://x.com/test/status/1`. -/
theorem ready_x_exact_update_witness :
    (process_snapshot_for_bookmark (Json.str "b1") (Json.str "h1")
      (Json.str "https://x.com/test/status/1")
      (some { status_code := 200,
              body := Json.arr [Json.obj [("description", Json.str "hi"),
                ("photos", Json.arr [Json.str "img.png"]),
                ("user_posted", Json.str "alice")]] }) (fun _ _ => none)).updateCalls
      = [(Json.str "b1",
          [("snapshot_id", Json.null), ("description", Json.str "hi"),
           ("preview_image_url", Json.str "img.png"),
           ("social_profile_name", Json.str "alice")])] :=
  ready_x_exact_update (Json.str "b1") (Json.str "h1")
    "https://x.com/test/status/1" (fun _ _ => none) (by decide)

/-- Key-presence by `List.any` agrees with `lookupKey`. -/
theorem any_key_iff_lookup (kvs : List (String × Json)) (k : String) :
    kvs.any (fun kv => kv.1 == k) = true ↔ ∃ v, lookupKey kvs k = some v := by
  induction kvs with
  | nil => simp [lookupKey]
  | cons kv rest ih =>
    rcases kv with ⟨k', v'⟩
    by_cases hk : (k' == k) = true <;> simp [lookupKey, hk, ih]

/-- Re-assigning the same dict key keeps only the last value. -/
theorem setKey_setKey (u : List (String × Json)) (k : String) (v₀ v : Json) :
    setKey (setKey u k v₀) k v = setKey u k v := by
  induction u with
  | nil => simp [setKey]
  | cons kv rest ih =>
    rcases kv with ⟨k', v'⟩
    by_cases hk : (k' == k) = true <;> simp [setKey, hk, ih]

/-- On a list of dict-shaped items, the error scan returns `True`
exactly when some item has an `"error"` key; in particular it returns
`Except.ok true` whenever `lastErrorValue` found one. -/
theorem checkItems_ok_of_lastError (items : List Json)
    (hobj : ∀ item ∈ items, ∃ kvs, item = Json.obj kvs)
    (hlast : lastErrorValue items ≠ none) :
    checkItemsForError items = Except.ok true := by
  induction items with
  | nil => simp [lastErrorValue] at hlast
  | cons item rest ih =>
    obtain ⟨kvs, rfl⟩ := hobj _ (List.mem_cons_self item rest)
    have hobj' : ∀ it ∈ rest, ∃ kvs, it = Json.obj kvs :=
      fun it hit => hobj it (List.mem_cons_of_mem _ hit)
    by_cases hany : (kvs.any (fun kv => kv.1 == "error")) = true
    · simp [checkItemsForError, pyContains, hany]
    · simp only [checkItemsForError, pyContains, hany]
      cases hrest : lastErrorValue rest with
      | some w =>
        simpa using ih hobj' (by rw [hrest]; exact Option.some_ne_none w)
      | none =>
        exfalso
        simp only [lastErrorValue, hrest] at hlast
        obtain ⟨w, hw⟩ := Option.ne_none_iff_exists.mp hlast
        exact hany ((any_key_iff_lookup kvs "error").mpr ⟨w, hw.symm⟩)

/-- The error loop writes `scrape_error` to the last error message
found, leaving the accumulated updates otherwise unchanged, provided
every item is dict-shaped. -/
theorem scrape_error_updates_spec (items : List Json)
    (hobj : ∀ item ∈ items, ∃ kvs, item = Json.obj kvs) :
    ∀ acc, scrape_error_updates items acc = Except.ok
      (match lastErrorValue items with
       | none => acc
       | some v => setKey acc "scrape_error" v) := by
  induction items with
  | nil => intro acc; rfl
  | cons item rest ih =>
    intro acc
    obtain ⟨kvs, rfl⟩ := hobj _ (List.mem_cons_self item rest)
    have hobj' : ∀ it ∈ rest, ∃ kvs, it = Json.obj kvs :=
      fun it hit => hobj it (List.mem_cons_of_mem _ hit)
    by_cases hany : (kvs.any (fun kv => kv.1 == "error")) = true
    · obtain ⟨v₀, hv₀⟩ := (any_key_iff_lookup kvs "error").mp hany
      simp only [scrape_error_updates, pyContains, hany, pyGetItem, hv₀]
      rw [ih hobj' (setKey acc "scrape_error" v₀)]
      cases hrest : lastErrorValue rest with
      | some w =>
        simp only [lastErrorValue, hrest, setKey_setKey]
      | none =>
        simp only [lastErrorValue, hrest, hv₀]
    · have hnone : lookupKey kvs "error" = none := by
        cases hl : lookupKey kvs "error" with
        | none => rfl
        | some w =>
          exact absurd ((any_key_iff_lookup kvs "error").mpr ⟨w, hl⟩) hany
      simp only [scrape_error_updates, pyContains, hany]
      rw [ih hobj' acc]
      simp only [lastErrorValue, hnone]
      cases hrest : lastErrorValue rest <;> simp [hrest]

/-- C3: a 200 response whose JSON array contains an element with an
`"error"` field makes `process_snapshot_for_bookmark` perform exactly
one `update_bookmark` call whose payload is exactly
`{snapshot_id: None, scrape_error: message}` — `message` being the
error of the last such element — with no content field
(`description`, `preview_image_url`, `preview_video_url`,
`social_profile_name`) in the payload. -/
theorem provider_error_exact_update (bookmark_id snapshot_id url : Json)
    (store : Json → List (String × Json) → Option Json)
    (items : List Json) (v : Json)
    (hobj : ∀ item ∈ items, ∃ kvs, item = Json.obj kvs)
    (hlast : lastErrorValue items = some v) :
    (process_snapshot_for_bookmark bookmark_id snapshot_id url
      (some { status_code := 200, body := Json.arr items }) store).updateCalls
      = [(bookmark_id, [("snapshot_id", Json.null), ("scrape_error", v)])] := by
  have hne : 0 < items.length := by
    cases items with
    | nil => simp [lastErrorValue] at hlast
    | cons a rest => simp
  have hchk : check_download_for_errors (Json.arr items) = Except.ok true := by
    simp only [check_download_for_errors, if_pos hne]
    exact checkItems_ok_of_lastError items hobj (by rw [hlast]; exact Option.some_ne_none v)
  have hcu : compute_updates_for_200 url (Json.arr items)
      = Except.ok [("snapshot_id", Json.null), ("scrape_error", v)] := by
    simp only [compute_updates_for_200, hchk]
    rw [scrape_error_updates_spec items hobj, hlast]
    rfl
  simp only [process_snapshot_for_bookmark, hcu]
  by_cases hs : storeResultTruthy (store bookmark_id
      [("snapshot_id", Json.null), ("scrape_error", v)]) = true <;> simp [hs]

/-- C3 witness: the body `[{"error":"blocked","error_code":"E1"}]`. -/
theorem provider_error_exact_update_witness :
    (process_snapshot_for_bookmark (Json.str "b1") (Json.str "h1")
      (Json.str "https://x.com/a")
      (some { status_code := 200,
              body := Json.arr [Json.obj [("error", Json.str "blocked"),
                ("error_code", Json.str "E1")]] }) (fun _ _ => none)).updateCalls
      = [(Json.str "b1",
          [("snapshot_id", Json.null), ("scrape_error", Json.str "blocked")])] :=
  provider_error_exact_update (Json.str "b1") (Json.str "h1")
    (Json.str "https://x.com/a") (fun _ _ => none)
    [Json.obj [("error", Json.str "blocked"), ("error_code", Json.str "E1")]]
    (Json.str "blocked")
    (by intro item hmem
        simp only [List.mem_singleton] at hmem
        exact ⟨_, hmem⟩)
    rfl

/-- Keys after a dict assignment: the assigned key plus the old keys. -/
theorem hasKey_setKey (u : List (String × Json)) (k a : String) (v : Json) :
    hasKey (setKey u k v) a = ((k == a) || hasKey u a) := by
  induction u with
  | nil => simp [setKey, hasKey]
  | cons kv rest ih =>
    rcases kv with ⟨k', v'⟩
    cases hk : (k' == k) with
    | true =>
      have hkk : k' = k := by simpa using hk
      subst hkk
      simp [setKey, hasKey]
    | false =>
      simp [setKey, hasKey, hk, ih]
      cases hka : (k' == a) <;> cases hkb : (k == a) <;> simp

/-- C6: a content field that is absent (`None`) or empty (`""`) in the
extracted record never appears as a key of the persisted `Ready`
payload `{"snapshot_id": None}` + truthy fields; and the all-empty
extraction — exactly what `process_result` returns for an unknown
platform — leaves the payload at just the handle-clear
`{snapshot_id: None}`. -/
theorem absent_fields_not_persisted (p : ExtractedContent) (rd : Json)
    (sv : String) :
    ((p.content = Json.null ∨ p.content = Json.str "") →
      hasKey (appendContentFields [("snapshot_id", Json.null)] p) "description" = false) ∧
    ((p.preview_image_url = Json.null ∨ p.preview_image_url = Json.str "") →
      hasKey (appendContentFields [("snapshot_id", Json.null)] p) "preview_image_url" = false) ∧
    ((p.preview_video_url = Json.null ∨ p.preview_video_url = Json.str "") →
      hasKey (appendContentFields [("snapshot_id", Json.null)] p) "preview_video_url" = false) ∧
    ((p.social_profile_name = Json.null ∨ p.social_profile_name = Json.str "") →
      hasKey (appendContentFields [("snapshot_id", Json.null)] p) "social_profile_name" = false) ∧
    (sv ≠ "x" → sv ≠ "linkedin" →
      ∃ ec, process_result rd sv = Except.ok ec ∧
        appendContentFields [("snapshot_id", Json.null)] ec
          = [("snapshot_id", Json.null)]) := by
  refine ⟨?_, ?_, ?_, ?_, ?_⟩
  · intro h
    have hf : truthy p.content = false := by
      rcases h with h | h <;> rw [h] <;> rfl
    unfold appendContentFields
    cases h2 : truthy p.preview_image_url <;>
      cases h3 : truthy p.preview_video_url <;>
        cases h4 : truthy p.social_profile_name <;>
          simp +decide [hf, h2, h3, h4, hasKey_setKey, hasKey]
  · intro h
    have hf : truthy p.preview_image_url = false := by
      rcases h with h | h <;> rw [h] <;> rfl
    unfold appendContentFields
    cases h1 : truthy p.content <;>
      cases h3 : truthy p.preview_video_url <;>
        cases h4 : truthy p.social_profile_name <;>
          simp +decide [hf, h1, h3, h4, hasKey_setKey, hasKey]
  · intro h
    have hf : truthy p.preview_video_url = false := by
      rcases h with h | h <;> rw [h] <;> rfl
    unfold appendContentFields
    cases h1 : truthy p.content <;>
      cases h2 : truthy p.preview_image_url <;>
        cases h4 : truthy p.social_profile_name <;>
          simp +decide [hf, h1, h2, h4, hasKey_setKey, hasKey]
  · intro h
    have hf : truthy p.social_profile_name = false := by
      rcases h with h | h <;> rw [h] <;> rfl
    unfold appendContentFields
    cases h1 : truthy p.content <;>
      cases h2 : truthy p.preview_image_url <;>
        cases h3 : truthy p.preview_video_url <;>
          simp +decide [hf, h1, h2, h3, hasKey_setKey, hasKey]
  · intro hx hl
    have hxe : (sv == "x") = false := by simpa using hx
    have hle : (sv == "linkedin") = false := by simpa using hl
    refine ⟨{ content := Json.str "", preview_image_url := Json.null,
              preview_video_url := Json.null,
              social_profile_name := Json.null }, ?_, ?_⟩
    · simp only [process_result, hxe, hle]
      rfl
    · rfl

/-- C6 witness: the all-absent extraction and the Unknown platform
`"instagram"` on an empty payload. -/
theorem absent_fields_not_persisted_witness :
    (hasKey (appendContentFields [("snapshot_id", Json.null)]
      { content := Json.null, preview_image_url := Json.null,
        preview_video_url := Json.null,
        social_profile_name := Json.null }) "description" = false) ∧
    (hasKey (appendContentFields [("snapshot_id", Json.null)]
      { content := Json.null, preview_image_url := Json.null,
        preview_video_url := Json.null,
        social_profile_name := Json.null }) "preview_image_url" = false) ∧
    (hasKey (appendContentFields [("snapshot_id", Json.null)]
      { content := Json.null, preview_image_url := Json.null,
        preview_video_url := Json.null,
        social_profile_name := Json.null }) "preview_video_url" = false) ∧
    (hasKey (appendContentFields [("snapshot_id", Json.null)]
      { content := Json.null, preview_image_url := Json.null,
        preview_video_url := Json.null,
        social_profile_name := Json.null }) "social_profile_name" = false) ∧
    (∃ ec, process_result (Json.obj []) "instagram" = Except.ok ec ∧
      appendContentFields [("snapshot_id", Json.null)] ec
        = [("snapshot_id", Json.null)]) := by
  have t := absent_fields_not_persisted
    { content := Json.null, preview_image_url := Json.null,
      preview_video_url := Json.null, social_profile_name := Json.null }
    (Json.obj []) "instagram"
  exact ⟨t.1 (Or.inl rfl), t.2.1 (Or.inl rfl), t.2.2.1 (Or.inl rfl),
    t.2.2.2.1 (Or.inl rfl), t.2.2.2.2 (by decide) (by decide)⟩

/-- A Python `or` of two string-or-falsy values is string-or-falsy. -/
theorem strOrFalsy_pyOr (a b : Json) (ha : strOrFalsy a) (hb : strOrFalsy b) :
    strOrFalsy (pyOr a b) := by
  rcases ha with hf | ⟨s, rfl⟩
  · unfold pyOr
    simp only [hf, Bool.false_eq_true, if_false]
    exact hb
  · cases ht : truthy (Json.str s) with
    | true => exact Or.inr ⟨s, by simp [pyOr, ht]⟩
    | false =>
      unfold pyOr
      simp only [ht, Bool.false_eq_true, if_false]
      exact hb

/-- A Python `or` chain ending in a string literal yields a string when
the earlier alternative is string-or-falsy. -/
theorem pyOr_str_last (a : Json) (d : String) (ha : strOrFalsy a) :
    ∃ s, pyOr a (Json.str d) = Json.str s := by
  rcases ha with hf | ⟨s, rfl⟩
  · exact ⟨d, by simp [pyOr, hf]⟩
  · cases ht : truthy (Json.str s) with
    | true => exact ⟨s, by simp [pyOr, ht]⟩
    | false => exact ⟨d, by simp [pyOr, ht]⟩

/-- `v and len(v) > 0` cannot raise on falsy, list or string values. -/
theorem condTruthyLen_safe (v : Json) (hv : sizedOrFalsy v) :
    ∃ b, condTruthyLen v = Except.ok b := by
  rcases hv with hf | ⟨xs, rfl⟩ | ⟨s, rfl⟩
  · exact ⟨false, by simp [condTruthyLen, hf]⟩
  · cases ht : truthy (Json.arr xs) with
    | true => exact ⟨decide (0 < xs.length), by simp [condTruthyLen, ht, pyLen]⟩
    | false => exact ⟨false, by simp [condTruthyLen, ht]⟩
  · cases ht : truthy (Json.str s) with
    | true => exact ⟨decide (0 < s.data.length), by simp [condTruthyLen, ht, pyLen]⟩
    | false => exact ⟨false, by simp [condTruthyLen, ht]⟩

/-- A passing `v and len(v) > 0` guard implies `v` is truthy. -/
theorem condTruthyLen_true (v : Json)
    (h : condTruthyLen v = Except.ok true) : truthy v = true := by
  cases ht : truthy v with
  | true => rfl
  | false =>
    rw [condTruthyLen, ht] at h
    simp at h

/-- Indexing a list or string that passed the non-empty guard cannot
raise. -/
theorem pyIndex0_safe (v : Json) (hv : sizedOrFalsy v)
    (h : condTruthyLen v = Except.ok true) :
    ∃ j, pyIndex0 v = Except.ok j := by
  have ht := condTruthyLen_true v h
  rcases hv with hf | ⟨xs, rfl⟩ | ⟨s, rfl⟩
  · rw [ht] at hf
    cases hf
  · cases xs with
    | nil => simp [truthy] at ht
    | cons x rest => exact ⟨x, rfl⟩
  · cases hs : s.data with
    | nil => simp [truthy, hs] at ht
    | cons c cs => exact ⟨Json.str (String.mk [c]), by simp [pyIndex0, hs]⟩

/-- `v[0] if v and len(v) > 0 else None` cannot raise on falsy, list or
string values. -/
theorem pyFirstOrNone_safe (v : Json) (hv : sizedOrFalsy v) :
    ∃ j, pyFirstOrNone v = Except.ok j := by
  obtain ⟨b, hb⟩ := condTruthyLen_safe v hv
  cases b with
  | false => exact ⟨Json.null, by simp [pyFirstOrNone, hb]⟩
  | true =>
    obtain ⟨j, hj⟩ := pyIndex0_safe v hv hb
    exact ⟨j, by simp [pyFirstOrNone, hb, hj]⟩

/-- `extract_x_content` is total (and yields string content) on safe
dict payloads. -/
theorem extract_x_total_safe (kvs : List (String × Json))
    (h1 : strOrFalsy (pyGet kvs "description"))
    (h2 : strOrFalsy (pyGet kvs "text"))
    (h3 : strOrFalsy (pyGet kvs "content"))
    (hp : sizedOrFalsy (pyGetD kvs "photos" (Json.arr [])))
    (hv : sizedOrFalsy (pyGetD kvs "videos" (Json.arr []))) :
    ∃ ec s, extract_x_content (Json.obj kvs) = Except.ok ec ∧
      ec.content = Json.str s := by
  obtain ⟨s, hs⟩ := pyOr_str_last _ (pyStr (Json.obj kvs))
    (strOrFalsy_pyOr _ _ (strOrFalsy_pyOr _ _ h1 h2) h3)
  obtain ⟨img, himg⟩ := pyFirstOrNone_safe _ hp
  by_cases hti : truthy img = true
  · have heq : extract_x_content (Json.obj kvs) = Except.ok
        { content := pyOr (pyOr (pyOr (pyGet kvs "description")
            (pyGet kvs "text")) (pyGet kvs "content"))
            (Json.str (pyStr (Json.obj kvs))),
          preview_image_url := img, preview_video_url := Json.null,
          social_profile_name := pyGet kvs "user_posted" } := by
      simp [extract_x_content, himg, hti]
    exact ⟨_, s, heq, hs⟩
  · have htif : truthy img = false := by simpa using hti
    obtain ⟨b, hb⟩ := condTruthyLen_safe _ hv
    cases b with
    | false =>
      have heq : extract_x_content (Json.obj kvs) = Except.ok
          { content := pyOr (pyOr (pyOr (pyGet kvs "description")
              (pyGet kvs "text")) (pyGet kvs "content"))
              (Json.str (pyStr (Json.obj kvs))),
            preview_image_url := img, preview_video_url := Json.null,
            social_profile_name := pyGet kvs "user_posted" } := by
        simp [extract_x_content, himg, htif, hb]
      exact ⟨_, s, heq, hs⟩
    | true =>
      obtain ⟨vj, hvj⟩ := pyIndex0_safe _ hv hb
      cases vj with
      | obj vkvs =>
        have heq : extract_x_content (Json.obj kvs) = Except.ok
            { content := pyOr (pyOr (pyOr (pyGet kvs "description")
                (pyGet kvs "text")) (pyGet kvs "content"))
                (Json.str (pyStr (Json.obj kvs))),
              preview_image_url := img,
              preview_video_url := pyGet vkvs "video_url",
              social_profile_name := pyGet kvs "user_posted" } := by
          simp [extract_x_content, himg, htif, hb, hvj]
        exact ⟨_, s, heq, hs⟩
      | null =>
        have heq : extract_x_content (Json.obj kvs) = Except.ok
            { content := pyOr (pyOr (pyOr (pyGet kvs "description")
                (pyGet kvs "text")) (pyGet kvs "content"))
                (Json.str (pyStr (Json.obj kvs))),
              preview_image_url := img, preview_video_url := Json.null,
              social_profile_name := pyGet kvs "user_posted" } := by
          simp [extract_x_content, himg, htif, hb, hvj]
        exact ⟨_, s, heq, hs⟩
      | bool b2 =>
        have heq : extract_x_content (Json.obj kvs) = Except.ok
            { content := pyOr (pyOr (pyOr (pyGet kvs "description")
                (pyGet kvs "text")) (pyGet kvs "content"))
                (Json.str (pyStr (Json.obj kvs))),
              preview_image_url := img, preview_video_url := Json.bool b2,
              social_profile_name := pyGet kvs "user_posted" } := by
          simp [extract_x_content, himg, htif, hb, hvj]
        exact ⟨_, s, heq, hs⟩
      | num n =>
        have heq : extract_x_content (Json.obj kvs) = Except.ok
            { content := pyOr (pyOr (pyOr (pyGet kvs "description")
                (pyGet kvs "text")) (pyGet kvs "content"))
                (Json.str (pyStr (Json.obj kvs))),
              preview_image_url := img, preview_video_url := Json.num n,
              social_profile_name := pyGet kvs "user_posted" } := by
          simp [extract_x_content, himg, htif, hb, hvj]
        exact ⟨_, s, heq, hs⟩
      | str s2 =>
        have heq : extract_x_content (Json.obj kvs) = Except.ok
            { content := pyOr (pyOr (pyOr (pyGet kvs "description")
                (pyGet kvs "text")) (pyGet kvs "content"))
                (Json.str (pyStr (Json.obj kvs))),
              preview_image_url := img, preview_video_url := Json.str s2,
              social_profile_name := pyGet kvs "user_posted" } := by
          simp [extract_x_content, himg, htif, hb, hvj]
        exact ⟨_, s, heq, hs⟩
      | arr xs2 =>
        have heq : extract_x_content (Json.obj kvs) = Except.ok
            { content := pyOr (pyOr (pyOr (pyGet kvs "description")
                (pyGet kvs "text")) (pyGet kvs "content"))
                (Json.str (pyStr (Json.obj kvs))),
              preview_image_url := img, preview_video_url := Json.arr xs2,
              social_profile_name := pyGet kvs "user_posted" } := by
          simp [extract_x_content, himg, htif, hb, hvj]
        exact ⟨_, s, heq, hs⟩

/-- `extract_linkedin_content` is total (and yields string content) on
safe dict payloads. -/
theorem extract_linkedin_total_safe (kvs : List (String × Json))
    (h1 : strOrFalsy (pyGet kvs "post_text"))
    (h2 : strOrFalsy (pyGet kvs "text"))
    (h3 : strOrFalsy (pyGet kvs "title"))
    (h4 : strOrFalsy (pyGet kvs "headline"))
    (hi : sizedOrFalsy (pyGetD kvs "images" (Json.arr []))) :
    ∃ ec s, extract_linkedin_content (Json.obj kvs) = Except.ok ec ∧
      ec.content = Json.str s := by
  obtain ⟨s, hs⟩ := pyOr_str_last _ (pyStr (Json.obj kvs))
    (strOrFalsy_pyOr _ _ (strOrFalsy_pyOr _ _ (strOrFalsy_pyOr _ _ h1 h2) h3) h4)
  obtain ⟨img, himg⟩ := pyFirstOrNone_safe _ hi
  have heq : extract_linkedin_content (Json.obj kvs) = Except.ok
      { content := pyOr (pyOr (pyOr (pyOr (pyGet kvs "post_text")
          (pyGet kvs "text")) (pyGet kvs "title")) (pyGet kvs "headline"))
          (Json.str (pyStr (Json.obj kvs))),
        preview_image_url := img, preview_video_url := Json.null,
        social_profile_name := pyGet kvs "user_id" } := by
    simp [extract_linkedin_content, himg]
  exact ⟨_, s, heq, hs⟩

/-- C1 (amended): the extractors are total — all four fields built,
content a string, no exception — for every non-dict payload and for
every dict payload whose content-candidate fields are strings or falsy
and whose media-list fields (`photos`/`videos` for X, `images` for
LinkedIn) are falsy, arrays or strings; the Unknown-platform default in
`process_result` is total unconditionally.  (Outside this restriction
the extractors can raise; see the counterexample.) -/
theorem extraction_totality_amended (j : Json) :
    (xSafeInput j → ∃ ec s, extract_x_content j = Except.ok ec ∧
      ec.content = Json.str s) ∧
    (linkedinSafeInput j → ∃ ec s, extract_linkedin_content j = Except.ok ec ∧
      ec.content = Json.str s) ∧
    (∀ sv : String, sv ≠ "x" → sv ≠ "linkedin" →
      process_result j sv = Except.ok
        { content := Json.str "", preview_image_url := Json.null,
          preview_video_url := Json.null,
          social_profile_name := Json.null }) := by
  refine ⟨?_, ?_, ?_⟩
  · intro hsafe
    cases j with
    | obj kvs =>
      exact extract_x_total_safe kvs hsafe.1 hsafe.2.1 hsafe.2.2.1
        hsafe.2.2.2.1 hsafe.2.2.2.2
    | null => exact ⟨_, _, rfl, rfl⟩
    | bool b => exact ⟨_, _, rfl, rfl⟩
    | num n => exact ⟨_, _, rfl, rfl⟩
    | str s => exact ⟨_, _, rfl, rfl⟩
    | arr xs => exact ⟨_, _, rfl, rfl⟩
  · intro hsafe
    cases j with
    | obj kvs =>
      exact extract_linkedin_total_safe kvs hsafe.1 hsafe.2.1 hsafe.2.2.1
        hsafe.2.2.2.1 hsafe.2.2.2.2
    | null => exact ⟨_, _, rfl, rfl⟩
    | bool b => exact ⟨_, _, rfl, rfl⟩
    | num n => exact ⟨_, _, rfl, rfl⟩
    | str s => exact ⟨_, _, rfl, rfl⟩
    | arr xs => exact ⟨_, _, rfl, rfl⟩
  · intro sv hx hl
    have hxe : (sv == "x") = false := by simpa using hx
    have hle : (sv == "linkedin") = false := by simpa using hl
    simp only [process_result, hxe, hle]
    rfl

/-- C1 counterexample: the claim as stated ("for every JSON-object
input ... never raises") is false — a dict whose `photos` (resp.
`images`) value is the boolean `true` makes the extractor call
`len(True)`, raising `TypeError`. -/
theorem extraction_totality_counterexample :
    extract_x_content (Json.obj [("photos", Json.bool true)])
      = Except.error PyErr.typeError ∧
    extract_linkedin_content (Json.obj [("images", Json.bool true)])
      = Except.error PyErr.typeError := ⟨rfl, rfl⟩

/-- C1 witness: concrete safe payloads for both extractors and the
Unknown platform. -/
theorem extraction_totality_amended_witness :
    (∃ ec s, extract_x_content (Json.obj [("description", Json.str "hi")])
      = Except.ok ec ∧ ec.content = Json.str s) ∧
    (∃ ec s, extract_linkedin_content (Json.obj [("post_text", Json.str "post")])
      = Except.ok ec ∧ ec.content = Json.str s) ∧
    process_result (Json.obj []) "unknown" = Except.ok
      { content := Json.str "", preview_image_url := Json.null,
        preview_video_url := Json.null, social_profile_name := Json.null } := by
  have t1 := (extraction_totality_amended (Json.obj [("description", Json.str "hi")])).1
  have t2 := (extraction_totality_amended (Json.obj [("post_text", Json.str "post")])).2.1
  have t3 := (extraction_totality_amended (Json.obj [])).2.2 "unknown"
  exact ⟨t1 ⟨Or.inr ⟨"hi", rfl⟩, Or.inl rfl, Or.inl rfl, Or.inl rfl, Or.inl rfl⟩,
    t2 ⟨Or.inr ⟨"post", rfl⟩, Or.inl rfl, Or.inl rfl, Or.inl rfl, Or.inl rfl⟩,
    t3 (by decide) (by decide)⟩

/-- C9 (amended): for an X payload whose `photos` value is absent or an
empty array, the extracted `preview_video_url` is: the `video_url`
field of the first `videos` element when that element is a dict (the
stored value when the key is present, else `None`); the element itself
when it is a bare string; and `None` when `videos` is absent or empty.
The guard before the `videos` fallback is `if not preview_image_url:`,
so a truthy first photo suppresses the video — but a falsy first photo
(e.g. the empty string) does not, which is what the counterexample
exhibits against the claim as stated. -/
theorem x_video_fallback_amended (kvs : List (String × Json)) :
    ((pyGetD kvs "photos" (Json.arr []) = Json.arr []) →
      ((pyGetD kvs "videos" (Json.arr []) = Json.arr [] →
        (extract_x_content (Json.obj kvs)).map (fun ec => ec.preview_video_url)
          = Except.ok Json.null) ∧
       (∀ vkvs rest, pyGetD kvs "videos" (Json.arr [])
          = Json.arr (Json.obj vkvs :: rest) →
        (extract_x_content (Json.obj kvs)).map (fun ec => ec.preview_video_url)
          = Except.ok (pyGet vkvs "video_url")) ∧
       (∀ s rest, pyGetD kvs "videos" (Json.arr [])
          = Json.arr (Json.str s :: rest) →
        (extract_x_content (Json.obj kvs)).map (fun ec => ec.preview_video_url)
          = Except.ok (Json.str s)))) ∧
    (∀ p rest, pyGetD kvs "photos" (Json.arr []) = Json.arr (p :: rest) →
      truthy p = true →
      (extract_x_content (Json.obj kvs)).map (fun ec => ec.preview_video_url)
        = Except.ok Json.null) := by
  constructor
  · intro hph
    refine ⟨?_, ?_, ?_⟩
    · intro hvid
      simp [extract_x_content, hph, hvid, pyFirstOrNone, condTruthyLen, truthy,
        Except.map]
    · intro vkvs rest hvid
      simp [extract_x_content, hph, hvid, pyFirstOrNone, condTruthyLen, truthy,
        pyLen, pyIndex0, Except.map]
    · intro s rest hvid
      simp [extract_x_content, hph, hvid, pyFirstOrNone, condTruthyLen, truthy,
        pyLen, pyIndex0, Except.map]
  · intro p rest hph htp
    have h1 : truthy (Json.arr (p :: rest)) = true := by simp [truthy]
    simp [extract_x_content, hph, pyFirstOrNone, condTruthyLen, h1,
      pyLen, pyIndex0, htp, Except.map]

/-- C9 counterexample: a photo IS present (`photos == [""]`, and it is
extracted as the preview image) yet `preview_video_url` is not absent:
the falsy empty-string photo lets the `videos` fallback run. -/
theorem x_video_fallback_counterexample :
    (extract_x_content (Json.obj [("photos", Json.arr [Json.str ""]),
      ("videos", Json.arr [Json.str "v.mp4"])])).map
        (fun ec => ec.preview_video_url) = Except.ok (Json.str "v.mp4") ∧
    (extract_x_content (Json.obj [("photos", Json.arr [Json.str ""]),
      ("videos", Json.arr [Json.str "v.mp4"])])).map
        (fun ec => ec.preview_image_url) = Except.ok (Json.str "") :=
  ⟨rfl, rfl⟩

/-- C9 witness: `videos == ["v.mp4"]` with no photos yields the bare
string; a truthy photo suppresses the video. -/
theorem x_video_fallback_witness :
    (extract_x_content (Json.obj [("videos", Json.arr [Json.str "v.mp4"])])).map
      (fun ec => ec.preview_video_url) = Except.ok (Json.str "v.mp4") ∧
    (extract_x_content (Json.obj [("photos", Json.arr [Json.str "p.png"])])).map
      (fun ec => ec.preview_video_url) = Except.ok Json.null :=
  ⟨((x_video_fallback_amended [("videos", Json.arr [Json.str "v.mp4"])]).1
      rfl).2.2 "v.mp4" [] rfl,
   (x_video_fallback_amended [("photos", Json.arr [Json.str "p.png"])]).2
      (Json.str "p.png") [] rfl rfl⟩

/-- Invariant of the bounded worker loop: started below the ceiling
with enough fuel, it exits; every cycle starts strictly below the
ceiling; an exit whose last accumulation was a (truncated) sleep lands
exactly on the ceiling; and the final runtime is at least the ceiling. -/
theorem workerLoop_spec (maxRt interval : Nat) (els : Nat → Nat)
    (hint : 1 ≤ interval) :
    ∀ fuel i rt sl starts, rt ≤ maxRt → maxRt < rt + fuel →
      (∀ x ∈ starts, x < maxRt) →
      ∃ ex, workerLoop maxRt interval els fuel i rt sl starts = some ex ∧
        (∀ x ∈ ex.cycleStarts, x < maxRt) ∧
        (ex.sleptLast = true → ex.runtime = maxRt) ∧ maxRt ≤ ex.runtime := by
  intro fuel
  induction fuel with
  | zero =>
    intro i rt sl starts hle hlt hst
    exfalso
    omega
  | succ fuel ih =>
    intro i rt sl starts hle hlt hst
    by_cases hrt : rt < maxRt
    · by_cases hrt1 : rt + els i < maxRt
      · have hmin2 : min interval (maxRt - (rt + els i)) ≤ maxRt - (rt + els i) :=
          min_le_right _ _
        have hmin1 : 1 ≤ min interval (maxRt - (rt + els i)) :=
          le_min hint (by omega)
        have hst' : ∀ x ∈ starts ++ [rt], x < maxRt := by
          intro x hx
          rcases List.mem_append.mp hx with hx | hx
          · exact hst x hx
          · simp only [List.mem_singleton] at hx
            omega
        obtain ⟨ex, hex, hp⟩ := ih (i + 1)
          (rt + els i + min interval (maxRt - (rt + els i))) true
          (starts ++ [rt]) (by omega) (by omega) hst'
        refine ⟨ex, ?_, hp⟩
        simp only [workerLoop, if_pos hrt, if_pos hrt1]
        exact hex
      · refine ⟨⟨rt + els i, false, starts ++ [rt]⟩, ?_, ?_, ?_, ?_⟩
        · simp only [workerLoop, if_pos hrt, if_neg hrt1]
        · intro x hx
          rcases List.mem_append.mp hx with hx | hx
          · exact hst x hx
          · simp only [List.mem_singleton] at hx
            omega
        · intro h
          simp at h
        · simp only []
          omega
    · refine ⟨⟨rt, sl, starts⟩, ?_, hst, ?_, ?_⟩
      · simp only [workerLoop, if_neg hrt]
      · intro _
        simp only []
        omega
      · simp only []
        omega

/-- C8: in bounded (worker) mode the loop accumulates cycle time plus
sleep time; no cycle is started once the accumulated total has reached
the ceiling `maxRt`; the sleep is truncated to
`min poll_interval (remaining budget)`, so when the loop exits after a
sleep its accumulated total is exactly the ceiling; and with a positive
poll interval the loop terminates within `maxRt + 1` iterations, with
at least the ceiling accumulated. -/
theorem bounded_worker_terminates (maxRt interval : Nat) (els : Nat → Nat)
    (hint : 1 ≤ interval) :
    ∃ ex, main_bounded maxRt interval els (maxRt + 1) = some ex ∧
      (∀ x ∈ ex.cycleStarts, x < maxRt) ∧
      (ex.sleptLast = true → ex.runtime = maxRt) ∧ maxRt ≤ ex.runtime :=
  workerLoop_spec maxRt interval els hint (maxRt + 1) 0 0 false []
    (Nat.zero_le _) (by omega) (by intro x hx; cases hx)

/-- C8 witness: a 300-second ceiling with a 30-second interval and
7-second cycles. -/
theorem bounded_worker_terminates_witness :
    ∃ ex, main_bounded 300 30 (fun _ => 7) 301 = some ex ∧
      (∀ x ∈ ex.cycleStarts, x < 300) ∧
      (ex.sleptLast = true → ex.runtime = 300) ∧ 300 ≤ ex.runtime :=
  bounded_worker_terminates 300 30 (fun _ => 7) (by decide)
